import Mathlib

set_option linter.unusedVariables false

/-!
Shallow embedding of the `AnimalShelter` data-access class, in its two
variants:

* `Original`  — `src/downloads/original/CRUD_Python_Module.py`
* `Enhanced`  — `src/downloads/enhanced/CRUD_Python_Module_Enhanced.py`

Python dictionaries are modelled as association lists of dynamically
typed values (`PyVal`).  The external MongoDB store is outside the
repository; each operation therefore takes the store's reply as an
explicit `StoreOutcome` argument (either a result object or a raised
`PyMongoError`), and the client-side code is translated line by line
around that boundary.  Raised Python exceptions are modelled with
`Except PyError`; lines printed by the baseline variant's `except`
blocks are returned alongside the result.
-/

/-- A dynamically typed Python value, per the module's open-ended
document shape (text, number, boolean, null, nested mapping, sequence). -/
inductive PyVal where
  | vdict (entries : List (String × PyVal))
  | vstr (s : String)
  | vnum (n : Int)
  | vbool (b : Bool)
  | vnone
  | vseq (xs : List PyVal)
deriving Repr

/-- A document as handed back by the store: a mapping from field name to
value (`Dict[str, Any]`). -/
abbrev Doc := List (String × PyVal)

/-- `isinstance(v, dict)`. -/
def isDict : PyVal → Bool
  | .vdict _ => true
  | _ => false

/-- The entries of a value known to be a dict (`[]` otherwise). -/
def dictEntries : PyVal → List (String × PyVal)
  | .vdict es => es
  | _ => []

/-- Python truthiness test `not v` specialised to dicts: a dict is falsy
exactly when it is empty. -/
def dictIsEmpty (v : PyVal) : Bool := (dictEntries v).isEmpty

/-- The Python exceptions raised by the module or by the store client. -/
inductive PyError where
  | valueError (msg : String)
  | typeError (msg : String)
  | runtimeError (msg : String)
  | pymongoError (msg : String)
deriving DecidableEq, Repr

/-- Result object of `insert_one`. -/
structure InsertOneResult where
  acknowledged : Bool
  inserted_id : Option Nat
deriving DecidableEq, Repr

/-- Result object of `update_one` / `update_many`.  `modified_count` is
`Option`al: the store client may report a null count. -/
structure UpdateResult where
  modified_count : Option Int
deriving DecidableEq, Repr

/-- Result object of `delete_one` / `delete_many`. -/
structure DeleteResult where
  deleted_count : Option Int
deriving DecidableEq, Repr

/-- Outcome of one call into the external store client: a result object,
or a raised `PyMongoError` with its message. -/
inductive StoreOutcome (α : Type) where
  | ok (a : α)
  | pymongoFail (msg : String)
deriving DecidableEq, Repr

/-- Python `int(x)` applied to a possibly-null count: raises `TypeError`
on `None`, is the identity on an integer count. -/
def pyIntOfCount : Option Int → Except PyError Int
  | some n => .ok n
  | none => .error (.typeError "int() argument must be a number, not NoneType")

/-- Python `x or 0` applied to a possibly-null count (`None` and `0` are
falsy, so both give `0`; any other integer gives itself). -/
def pyOrZero : Option Int → Int
  | some n => n
  | none => 0

namespace Original

/-- State of a baseline `AnimalShelter` relevant to the lifecycle
operations: the number of `close()` calls forwarded to the underlying
client.  The baseline never clears its `_client` attribute. -/
structure ShelterState where
  releaseCalls : Nat
deriving DecidableEq, Repr

/-- `__init__` of the baseline variant.  Returns the raised exception or
the constructed instance, paired with whether any contact with the store
(client construction + ping) was attempted. -/
def initRun (user password : String) (pingOk : Bool) :
    Except PyError ShelterState × Bool :=
  if user = "" || password = "" then
    (.error (.valueError "Both 'user' and 'password' are required."), false)
  else if pingOk then
    (.ok { releaseCalls := 0 }, true)
  else
    (.error (.pymongoError "ping failed"), true)

/-- Baseline `create`: validates, delegates to `insert_one`, converts
`res.acknowledged and res.inserted_id` to a Bool; a `PyMongoError` from
the store is caught, a diagnostic line is printed and `False` returned. -/
def create (data : PyVal) (store : StoreOutcome InsertOneResult) :
    Except PyError Bool × List String :=
  if !isDict data || dictIsEmpty data then
    (.error (.valueError "'data' must be a non-empty dict."), [])
  else
    match store with
    | .ok res => (.ok (res.acknowledged && res.inserted_id.isSome), [])
    | .pymongoFail e => (.ok false, ["[ERROR] Create failed: " ++ e])

/-- Baseline `read`: a `None` query defaults to `{}`; a non-dict query
raises `ValueError`; the cursor (find + optional sort + optional limit,
all executed by the store) yields the document list; a `PyMongoError` is
caught, a diagnostic line printed and `[]` returned.  `projection`,
`limit` and `sort` are forwarded verbatim into the cursor, whose output
is the `cursorDocs` argument. -/
def read (query : Option PyVal) (projection : Option PyVal) (limit : Int)
    (sort : Option (List (String × Int)))
    (cursorDocs : StoreOutcome (List Doc)) :
    Except PyError (List Doc) × List String :=
  let q := query.getD (.vdict [])
  if !isDict q then
    (.error (.valueError "'query' must be a dict."), [])
  else
    match cursorDocs with
    | .ok docs => (.ok docs, [])
    | .pymongoFail e => (.ok [], ["[ERROR] Read failed: " ++ e])

/-- Baseline `update`: rejects non-dict arguments only, delegates to
`update_one`/`update_many`, returns `int(res.modified_count)` (no null
coercion: `int(None)` raises `TypeError`, which the `except PyMongoError`
clause does not catch); a `PyMongoError` is caught, a diagnostic line
printed and `0` returned. -/
def update (query update_doc : PyVal) (many upsert : Bool)
    (store : StoreOutcome UpdateResult) : Except PyError Int × List String :=
  if !isDict query || !isDict update_doc then
    (.error (.valueError "'query' and 'update_doc' must be dicts."), [])
  else
    match store with
    | .ok res =>
      match pyIntOfCount res.modified_count with
      | .ok n => (.ok n, [])
      | .error e => (.error e, [])
    | .pymongoFail e => (.ok 0, ["[ERROR] Update failed: " ++ e])

/-- Baseline `delete`: rejects non-dict queries only, delegates to
`delete_one`/`delete_many`, returns `int(res.deleted_count)` (no null
coercion); a `PyMongoError` is caught, a diagnostic line printed and `0`
returned. -/
def delete (query : PyVal) (many : Bool)
    (store : StoreOutcome DeleteResult) : Except PyError Int × List String :=
  if !isDict query then
    (.error (.valueError "'query' must be a dict."), [])
  else
    match store with
    | .ok res =>
      match pyIntOfCount res.deleted_count with
      | .ok n => (.ok n, [])
      | .error e => (.error e, [])
    | .pymongoFail e => (.ok 0, ["[ERROR] Delete failed: " ++ e])

/-- Baseline `close`: `try: self._client.close() except Exception: pass`.
Every call forwards a release to the client (the handle is never
cleared) and any exception is swallowed, so the call always returns. -/
def close (s : ShelterState) : ShelterState :=
  { releaseCalls := s.releaseCalls + 1 }

end Original

namespace Enhanced

/-- State of an enhanced `AnimalShelter`: the optional client handle
(`self._client`, cleared by `close`) and the number of `close()` calls
forwarded to the underlying client. -/
structure ShelterState where
  client : Option Unit
  releaseCalls : Nat
deriving DecidableEq, Repr

/-- `env = os.getenv(NAME); if env: value = env` — the environment
variable overrides the constructor argument when set and non-empty. -/
def getenvResolve (arg : String) (env : Option String) : String :=
  match env with
  | some e => if e = "" then arg else e
  | none => arg

/-- `__init__` of the enhanced variant: resolves the environment
overrides, validates the resolved credentials, then connects and pings.
Returns the raised exception or the constructed instance, paired with
whether any contact with the store was attempted. -/
def initRun (user password : String) (envUser envPass : Option String)
    (pingOk : Bool) : Except PyError ShelterState × Bool :=
  let u := getenvResolve user envUser
  let p := getenvResolve password envPass
  if u = "" || p = "" then
    (.error (.valueError "MongoDB user and password must be provided"), false)
  else if pingOk then
    (.ok { client := some (), releaseCalls := 0 }, true)
  else
    (.error (.pymongoError "Failed to connect to MongoDB"), true)

/-- The `collection` property: raises `RuntimeError` when `self._client`
is `None`, otherwise hands back the collection. -/
def collectionGuard (s : ShelterState) : Except PyError Unit :=
  match s.client with
  | none => .error (.runtimeError "MongoDB client is not initialized")
  | some _ => .ok ()

/-- `d = dict(doc)`: a fresh mapping object holding the same entries as
`doc`. -/
def dictCopy (doc : Doc) : Doc := doc

/-- `d.pop(key, None)`: removes the entry for `key` from the mapping it
is called on, if present. -/
def dictPopKey (key : String) : Doc → Doc
  | [] => []
  | kv :: rest =>
    if kv.1 = key then dictPopKey key rest else kv :: dictPopKey key rest

/-- One iteration of the `_clean_results` loop on document object `doc`:
`d = dict(doc)` makes a fresh copy, `d.pop("_id", None)` mutates that
copy only.  The pair records (the value appended to `cleaned`, the
contents of the input object `doc` after the iteration). -/
def cleanDocPair (doc : Doc) : Doc × Doc :=
  let d := dictCopy doc
  let d := dictPopKey "_id" d
  (d, doc)

/-- `_clean_results`: the list of cleaned copies, in order. -/
def clean_results (docs : List Doc) : List Doc :=
  docs.map (fun doc => (cleanDocPair doc).1)

/-- Enhanced `create`: rejects an empty or non-dict document, accesses
`self.collection` (which may raise `RuntimeError`), delegates to
`insert_one`; a `PyMongoError` is logged at error severity and
re-raised. -/
def create (s : ShelterState) (data : PyVal)
    (store : StoreOutcome InsertOneResult) : Except PyError Bool :=
  if !isDict data || dictIsEmpty data then
    .error (.valueError "create() expects a non-empty dict")
  else
    match collectionGuard s with
    | .error e => .error e
    | .ok _ =>
      match store with
      | .ok res => .ok (res.acknowledged && res.inserted_id.isSome)
      | .pymongoFail e => .error (.pymongoError e)

/-- Enhanced `read`: a `None` query defaults to `{}`; a non-dict query
raises `ValueError`; accesses `self.collection`; the cursor output
(`cursorDocs`, after the store applied the forwarded projection, sort
and limit) is passed through `_clean_results`; a `PyMongoError` is
logged and re-raised. -/
def read (s : ShelterState) (query : Option PyVal) (projection : Option PyVal)
    (limit : Int) (sort : Option (List (String × Int)))
    (cursorDocs : StoreOutcome (List Doc)) : Except PyError (List Doc) :=
  let q := query.getD (.vdict [])
  if !isDict q then
    .error (.valueError "read() expects query to be a dict or None")
  else
    match collectionGuard s with
    | .error e => .error e
    | .ok _ =>
      match cursorDocs with
      | .ok docs => .ok (clean_results docs)
      | .pymongoFail e => .error (.pymongoError e)

/-- Enhanced `update`: rejects an empty or non-dict query and an empty
or non-dict update specification, accesses `self.collection`, delegates
to `update_one`/`update_many`, returns
`int(result.modified_count or 0)`; a `PyMongoError` is logged and
re-raised. -/
def update (s : ShelterState) (query update_doc : PyVal) (many upsert : Bool)
    (store : StoreOutcome UpdateResult) : Except PyError Int :=
  if !isDict query || dictIsEmpty query then
    .error (.valueError "update() expects a non-empty query dict")
  else if !isDict update_doc || dictIsEmpty update_doc then
    .error (.valueError "update() expects a non-empty update_doc dict")
  else
    match collectionGuard s with
    | .error e => .error e
    | .ok _ =>
      match store with
      | .ok res => .ok (pyOrZero res.modified_count)
      | .pymongoFail e => .error (.pymongoError e)

/-- Enhanced `delete`: rejects an empty or non-dict query, accesses
`self.collection`, delegates to `delete_one`/`delete_many`, returns
`int(result.deleted_count or 0)`; a `PyMongoError` is logged and
re-raised. -/
def delete (s : ShelterState) (query : PyVal) (many : Bool)
    (store : StoreOutcome DeleteResult) : Except PyError Int :=
  if !isDict query || dictIsEmpty query then
    .error (.valueError "delete() expects a non-empty query dict")
  else
    match collectionGuard s with
    | .error e => .error e
    | .ok _ =>
      match store with
      | .ok res => .ok (pyOrZero res.deleted_count)
      | .pymongoFail e => .error (.pymongoError e)

/-- Enhanced `close`: releases the client and clears `self._client` when
it is set; a no-op otherwise. -/
def close (s : ShelterState) : ShelterState :=
  match s.client with
  | some _ => { client := none, releaseCalls := s.releaseCalls + 1 }
  | none => s

end Enhanced

/-! ## Helper lemmas -/

/-- After `d.pop(key, None)`, looking up `key` yields nothing. -/
theorem lookup_dictPopKey_self (key : String) (d : Doc) :
    List.lookup key (Enhanced.dictPopKey key d) = none := by
  induction d with
  | nil => rfl
  | cons kv rest ih =>
    obtain ⟨k1, v1⟩ := kv
    by_cases h : k1 = key
    · simpa [Enhanced.dictPopKey, h] using ih
    · have hb : (key == k1) = false :=
        beq_eq_false_iff_ne.mpr fun h2 => h h2.symm
      simp [Enhanced.dictPopKey, h, List.lookup, hb, ih]

/-- `d.pop(key, None)` leaves the lookup of every other key unchanged. -/
theorem lookup_dictPopKey_ne (key k : String) (hk : k ≠ key) (d : Doc) :
    List.lookup k (Enhanced.dictPopKey key d) = List.lookup k d := by
  induction d with
  | nil => rfl
  | cons kv rest ih =>
    obtain ⟨k1, v1⟩ := kv
    by_cases h : k1 = key
    · have hb : (k == key) = false := beq_eq_false_iff_ne.mpr hk
      simp [Enhanced.dictPopKey, h, List.lookup, hb, ih]
    · cases hb : (k == k1) <;>
        simp [Enhanced.dictPopKey, h, List.lookup, hb, ih]

/-- Every document produced by `_clean_results` lacks the `_id` field. -/
theorem clean_results_no_id (docs : List Doc) (c : Doc)
    (hc : c ∈ Enhanced.clean_results docs) : List.lookup "_id" c = none := by
  simp only [Enhanced.clean_results, List.mem_map] at hc
  obtain ⟨doc, _, rfl⟩ := hc
  exact lookup_dictPopKey_self "_id" doc

/-! ## Claims -/

/-- C2: in the enhanced variant, every document in the sequence returned
by a successful `read` has the identity field `_id` removed, regardless
of the query, projection, limit, sort, instance state and store reply. -/
theorem C2_enhanced_read_strips_id (s : Enhanced.ShelterState)
    (query projection : Option PyVal) (limit : Int)
    (sort : Option (List (String × Int))) (cursorDocs : StoreOutcome (List Doc))
    (result : List Doc)
    (h : Enhanced.read s query projection limit sort cursorDocs = .ok result) :
    ∀ d ∈ result, List.lookup "_id" d = none := by
  obtain ⟨client, rc⟩ := s
  by_cases hq : isDict (query.getD (PyVal.vdict [])) = true
  · cases client with
    | none => simp [Enhanced.read, Enhanced.collectionGuard, hq] at h
    | some u =>
      cases cursorDocs with
      | pymongoFail e => simp [Enhanced.read, Enhanced.collectionGuard, hq] at h
      | ok docs =>
        simp [Enhanced.read, Enhanced.collectionGuard, hq] at h
        subst h
        intro d hd
        exact clean_results_no_id docs d hd
  · rw [Bool.not_eq_true] at hq
    simp [Enhanced.read, hq] at h

/-- C2 witness: a concrete successful read whose store reply contains an
`_id` field returns the document without it. -/
theorem C2_enhanced_read_strips_id_witness :
    List.lookup "_id" [("name", PyVal.vstr "Rex")] = none :=
  C2_enhanced_read_strips_id { client := some (), releaseCalls := 0 } none none 0
    none (.ok [[("_id", .vnum 5), ("name", .vstr "Rex")]])
    [[("name", PyVal.vstr "Rex")]] rfl
    [("name", PyVal.vstr "Rex")] (by simp)

/-- C10: `_clean_results` never mutates the documents it is given.  Each
loop iteration leaves the input object unchanged (so it retains every
original field, `_id` included) and contributes a fresh copy from which
`_id` has been removed while every other field keeps its value. -/
theorem C10_clean_results_no_mutation (docs : List Doc) :
    Enhanced.clean_results docs
      = docs.map (fun doc => (Enhanced.cleanDocPair doc).1) ∧
    ∀ doc ∈ docs,
      (Enhanced.cleanDocPair doc).2 = doc ∧
      List.lookup "_id" (Enhanced.cleanDocPair doc).1 = none ∧
      ∀ k, k ≠ "_id" →
        List.lookup k (Enhanced.cleanDocPair doc).1 = List.lookup k doc := by
  refine ⟨rfl, ?_⟩
  intro doc hdoc
  refine ⟨rfl, lookup_dictPopKey_self "_id" (Enhanced.dictCopy doc), ?_⟩
  intro k hk
  exact lookup_dictPopKey_ne "_id" k hk (Enhanced.dictCopy doc)

/-- C10 witness: a concrete document keeps all its fields (including
`_id`), while the cleaned copy lacks `_id` and keeps the other field. -/
theorem C10_clean_results_no_mutation_witness :
    (Enhanced.cleanDocPair [("_id", PyVal.vnum 1), ("breed", PyVal.vstr "husky")]).2
      = [("_id", PyVal.vnum 1), ("breed", PyVal.vstr "husky")] ∧
    List.lookup "_id"
      (Enhanced.cleanDocPair [("_id", PyVal.vnum 1), ("breed", PyVal.vstr "husky")]).1
      = none ∧
    List.lookup "breed"
      (Enhanced.cleanDocPair [("_id", PyVal.vnum 1), ("breed", PyVal.vstr "husky")]).1
      = List.lookup "breed" [("_id", PyVal.vnum 1), ("breed", PyVal.vstr "husky")] :=
  have h := (C10_clean_results_no_mutation
      [[("_id", PyVal.vnum 1), ("breed", PyVal.vstr "husky")]]).2
      [("_id", PyVal.vnum 1), ("breed", PyVal.vstr "husky")] (by simp)
  ⟨h.1, h.2.1, h.2.2 "breed" (by decide)⟩

/-- C1 counterexample: in the baseline variant,
`update({"name": "Rex"}, {}, many=False)` does not raise `ValueError`:
the empty update specification passes validation and the call is
delegated to the store, whose reply determines the outcome (a modified
count when the store answers, the caught-and-logged default `0` when the
store raises `PyMongoError`). -/
theorem C1_counterexample :
    Original.update (.vdict [("name", .vstr "Rex")]) (.vdict []) false false
        (.ok { modified_count := some 0 }) = (.ok 0, []) ∧
    Original.update (.vdict [("name", .vstr "Rex")]) (.vdict []) false false
        (.pymongoFail "boom") = (.ok 0, ["[ERROR] Update failed: boom"]) :=
  ⟨rfl, rfl⟩

/-- C1 amended: the enhanced `update` fails with `ValueError` when either
the query or the update specification is empty or not a mapping, before
any store operation is attempted (the error does not depend on the
instance state or the store reply); the baseline `update` raises
`ValueError` only when either argument is not a mapping — empty mappings
pass its validation, and with mapping arguments it never raises
`ValueError`, delegating to the store instead. -/
theorem C1_update_invalid_arguments (s : Enhanced.ShelterState)
    (q ud : PyVal) (many upsert : Bool) (storeE : StoreOutcome UpdateResult)
    (storeO : StoreOutcome UpdateResult) :
    (isDict q = false ∨ dictIsEmpty q = true →
      Enhanced.update s q ud many upsert storeE
        = .error (.valueError "update() expects a non-empty query dict")) ∧
    (isDict q = true → dictIsEmpty q = false →
      isDict ud = false ∨ dictIsEmpty ud = true →
      Enhanced.update s q ud many upsert storeE
        = .error (.valueError "update() expects a non-empty update_doc dict")) ∧
    (isDict q = false ∨ isDict ud = false →
      Original.update q ud many upsert storeO
        = (.error (.valueError "'query' and 'update_doc' must be dicts."), [])) ∧
    (isDict q = true → isDict ud = true → ∀ msg,
      (Original.update q ud many upsert storeO).1 ≠ .error (.valueError msg)) := by
  refine ⟨?_, ?_, ?_, ?_⟩
  · rintro (h | h) <;> simp [Enhanced.update, h]
  · intro hq hqe h
    rcases h with h | h <;> simp [Enhanced.update, hq, hqe, h]
  · rintro (h | h) <;> simp [Original.update, h]
  · intro hq hud msg
    cases storeO with
    | pymongoFail e => simp [Original.update, hq, hud]
    | ok res =>
      cases hmc : res.modified_count with
      | none => simp [Original.update, pyIntOfCount, hq, hud, hmc]
      | some n => simp [Original.update, pyIntOfCount, hq, hud, hmc]

/-- C1 amended, witness: the enhanced variant at
`update({"name": "Rex"}, {})` and the baseline at a non-dict query. -/
theorem C1_update_invalid_arguments_witness :
    Enhanced.update { client := some (), releaseCalls := 0 }
        (.vdict [("name", .vstr "Rex")]) (.vdict []) false false
        (.ok { modified_count := some 1 })
      = .error (.valueError "update() expects a non-empty update_doc dict") ∧
    Original.update (.vnum 3) (.vdict [("a", .vnum 1)]) false false
        (.ok { modified_count := some 1 })
      = (.error (.valueError "'query' and 'update_doc' must be dicts."), []) ∧
    (Original.update (.vdict [("name", .vstr "Rex")]) (.vdict [("a", .vnum 1)])
        false false (.ok { modified_count := some 1 })).1
      ≠ .error (.valueError "boom") := by
  have h := C1_update_invalid_arguments { client := some (), releaseCalls := 0 }
    (.vdict [("name", .vstr "Rex")]) (.vdict []) false false
    (.ok { modified_count := some 1 }) (.ok { modified_count := some 1 })
  have h2 := C1_update_invalid_arguments { client := some (), releaseCalls := 0 }
    (.vnum 3) (.vdict [("a", .vnum 1)]) false false
    (.ok { modified_count := some 1 }) (.ok { modified_count := some 1 })
  have h3 := C1_update_invalid_arguments { client := some (), releaseCalls := 0 }
    (.vdict [("name", .vstr "Rex")]) (.vdict [("a", .vnum 1)]) false false
    (.ok { modified_count := some 1 }) (.ok { modified_count := some 1 })
  exact ⟨h.2.1 rfl rfl (Or.inr rfl), h2.2.2.1 (Or.inl rfl),
    h3.2.2.2 rfl rfl "boom"⟩

/-- C3: in the baseline variant, a `PyMongoError` raised by the store
during `create`, `read` or `update` is caught, one diagnostic line is
emitted, and the "nothing happened" value is returned (`False`, `[]`,
`0` respectively), while invalid-argument conditions still raise
`ValueError` to the caller. -/
theorem C3_baseline_fail_soft (data q ud : PyVal) (query projection : Option PyVal)
    (limit : Int) (sort : Option (List (String × Int))) (many upsert : Bool)
    (e : String) (storeC : StoreOutcome InsertOneResult)
    (storeR : StoreOutcome (List Doc)) (storeU : StoreOutcome UpdateResult) :
    (isDict data = true → dictIsEmpty data = false →
      Original.create data (.pymongoFail e)
        = (.ok false, ["[ERROR] Create failed: " ++ e])) ∧
    (isDict (query.getD (.vdict [])) = true →
      Original.read query projection limit sort (.pymongoFail e)
        = (.ok [], ["[ERROR] Read failed: " ++ e])) ∧
    (isDict q = true → isDict ud = true →
      Original.update q ud many upsert (.pymongoFail e)
        = (.ok 0, ["[ERROR] Update failed: " ++ e])) ∧
    (isDict data = false ∨ dictIsEmpty data = true →
      Original.create data storeC
        = (.error (.valueError "'data' must be a non-empty dict."), [])) ∧
    (isDict (query.getD (.vdict [])) = false →
      Original.read query projection limit sort storeR
        = (.error (.valueError "'query' must be a dict."), [])) ∧
    (isDict q = false ∨ isDict ud = false →
      Original.update q ud many upsert storeU
        = (.error (.valueError "'query' and 'update_doc' must be dicts."), [])) := by
  refine ⟨?_, ?_, ?_, ?_, ?_, ?_⟩
  · intro h1 h2; simp [Original.create, h1, h2]
  · intro h1; simp [Original.read, h1]
  · intro h1 h2; simp [Original.update, h1, h2]
  · rintro (h | h) <;> simp [Original.create, h]
  · intro h1; simp [Original.read, h1]
  · rintro (h | h) <;> simp [Original.update, h]

/-- C3 witness: concrete store failures during valid calls return the
defaults with a diagnostic line; a concrete empty document raises. -/
theorem C3_baseline_fail_soft_witness :
    Original.create (.vdict [("name", .vstr "Rex")]) (.pymongoFail "down")
      = (.ok false, ["[ERROR] Create failed: down"]) ∧
    Original.read (some (.vdict [("name", .vstr "Rex")])) none 0 none
        (.pymongoFail "down")
      = (.ok [], ["[ERROR] Read failed: down"]) ∧
    Original.update (.vdict [("name", .vstr "Rex")]) (.vdict [("a", .vnum 1)])
        false false (.pymongoFail "down")
      = (.ok 0, ["[ERROR] Update failed: down"]) ∧
    Original.create (.vdict []) (.ok { acknowledged := true, inserted_id := some 7 })
      = (.error (.valueError "'data' must be a non-empty dict."), []) := by
  have h := C3_baseline_fail_soft (.vdict [("name", .vstr "Rex")])
    (.vdict [("name", .vstr "Rex")]) (.vdict [("a", .vnum 1)])
    (some (.vdict [("name", .vstr "Rex")])) none 0 none false false "down"
    (.ok { acknowledged := true, inserted_id := some 7 })
    (.ok []) (.ok { modified_count := some 0 })
  have h2 := C3_baseline_fail_soft (.vdict []) (.vdict [("name", .vstr "Rex")])
    (.vdict [("a", .vnum 1)]) (some (.vdict [("name", .vstr "Rex")])) none 0 none
    false false "down" (.ok { acknowledged := true, inserted_id := some 7 })
    (.ok []) (.ok { modified_count := some 0 })
  exact ⟨h.1 rfl rfl, h.2.1 rfl, h.2.2.1 rfl rfl, h2.2.2.2.1 (Or.inr rfl)⟩

/-- C4: in both variants, if the user identity or the secret credential
resolves to empty (after environment override in the enhanced variant),
construction fails with `ValueError` and no contact with the store is
attempted (the second component of `initRun` is `false`). -/
theorem C4_empty_credentials (user password : String)
    (envUser envPass : Option String) (pingOk : Bool) :
    (user = "" ∨ password = "" →
      Original.initRun user password pingOk
        = (.error (.valueError "Both 'user' and 'password' are required."), false)) ∧
    (Enhanced.getenvResolve user envUser = ""
        ∨ Enhanced.getenvResolve password envPass = "" →
      Enhanced.initRun user password envUser envPass pingOk
        = (.error (.valueError "MongoDB user and password must be provided"), false)) := by
  constructor
  · rintro (h | h) <;> simp [Original.initRun, h]
  · rintro (h | h) <;> simp [Enhanced.initRun, h]

/-- C4 witness: `user="u"`, `password=""`, no environment overrides. -/
theorem C4_empty_credentials_witness :
    Original.initRun "u" "" true
      = (.error (.valueError "Both 'user' and 'password' are required."), false) ∧
    Enhanced.initRun "u" "" none none true
      = (.error (.valueError "MongoDB user and password must be provided"), false) :=
  have h := C4_empty_credentials "u" "" none none true
  ⟨h.1 (Or.inr rfl), h.2 (Or.inr rfl)⟩

/-- C5: in the enhanced variant, a user-identity or credential
environment variable that is set and non-empty takes precedence over the
corresponding constructor argument (the constructed instance does not
depend on the argument at all); when the variable is unset or empty, the
constructor argument is used. -/
theorem C5_env_override_precedence (arg u u2 p p2 : String) (e : String)
    (envUser envPass : Option String) (pingOk : Bool) :
    (e ≠ "" → Enhanced.getenvResolve arg (some e) = e) ∧
    Enhanced.getenvResolve arg none = arg ∧
    Enhanced.getenvResolve arg (some "") = arg ∧
    (e ≠ "" →
      Enhanced.initRun u p (some e) envPass pingOk
        = Enhanced.initRun u2 p (some e) envPass pingOk) ∧
    (e ≠ "" →
      Enhanced.initRun u p envUser (some e) pingOk
        = Enhanced.initRun u p2 envUser (some e) pingOk) := by
  refine ⟨?_, rfl, rfl, ?_, ?_⟩
  · intro he; simp [Enhanced.getenvResolve, he]
  · intro he; simp [Enhanced.initRun, Enhanced.getenvResolve, he]
  · intro he; simp [Enhanced.initRun, Enhanced.getenvResolve, he]

/-- C5 witness: with `AAC_DB_USER="envu"` the constructor argument is
ignored; with it unset or empty the argument is used. -/
theorem C5_env_override_precedence_witness :
    Enhanced.getenvResolve "argu" (some "envu") = "envu" ∧
    Enhanced.getenvResolve "argu" none = "argu" ∧
    Enhanced.getenvResolve "argu" (some "") = "argu" ∧
    Enhanced.initRun "a1" "pw" (some "envu") none true
      = Enhanced.initRun "a2" "pw" (some "envu") none true :=
  have h := C5_env_override_precedence "argu" "a1" "a2" "pw" "pw2" "envu"
    (some "envu") none true
  ⟨h.1 (by decide), h.2.1, h.2.2.1, h.2.2.2.1 (by decide)⟩

/-- C6 counterexample: the enhanced variant's `delete` does reject an
empty query mapping — `delete({}, many=False)` raises `ValueError`
regardless of the store reply. -/
theorem C6_counterexample :
    Enhanced.delete { client := some (), releaseCalls := 0 } (.vdict []) false
        (.ok { deleted_count := some 3 })
      = .error (.valueError "delete() expects a non-empty query dict") := rfl

/-- C6 amended: the baseline variant's `delete` requires only that the
query be a mapping — an empty query mapping passes validation and is
delegated to the store — while the enhanced variant's `delete` rejects an
empty (or non-mapping) query with `ValueError`. -/
theorem C6_delete_empty_query (q : PyVal) (many : Bool)
    (s : Enhanced.ShelterState) (n : Int)
    (storeO : StoreOutcome DeleteResult) (storeE : StoreOutcome DeleteResult) :
    Original.delete (.vdict []) many (.ok { deleted_count := some n })
      = (.ok n, []) ∧
    Original.delete (.vdict []) many (.pymongoFail "boom")
      = (.ok 0, ["[ERROR] Delete failed: boom"]) ∧
    (isDict q = false →
      Original.delete q many storeO
        = (.error (.valueError "'query' must be a dict."), [])) ∧
    (isDict q = false ∨ dictIsEmpty q = true →
      Enhanced.delete s q many storeE
        = .error (.valueError "delete() expects a non-empty query dict")) := by
  refine ⟨rfl, rfl, ?_, ?_⟩
  · intro h; simp [Original.delete, h]
  · rintro (h | h) <;> simp [Enhanced.delete, h]

/-- C6 amended, witness: a non-dict baseline query and an empty enhanced
query. -/
theorem C6_delete_empty_query_witness :
    Original.delete (.vstr "oops") false (.ok { deleted_count := some 2 })
      = (.error (.valueError "'query' must be a dict."), []) ∧
    Enhanced.delete { client := some (), releaseCalls := 0 } (.vdict []) true
        (.ok { deleted_count := some 2 })
      = .error (.valueError "delete() expects a non-empty query dict") :=
  have h := C6_delete_empty_query (.vstr "oops") false
    { client := some (), releaseCalls := 0 } 2
    (.ok { deleted_count := some 2 }) (.ok { deleted_count := some 2 })
  have h2 := C6_delete_empty_query (.vdict []) true
    { client := some (), releaseCalls := 0 } 2
    (.ok { deleted_count := some 2 }) (.ok { deleted_count := some 2 })
  ⟨h.2.2.1 rfl, h2.2.2.2 (Or.inr rfl)⟩

/-- C7 counterexample: in the baseline variant a second `close()` call is
not a no-op — it forwards a second release to the underlying client
(the handle is never cleared), even though no error surfaces. -/
theorem C7_counterexample :
    (Original.close (Original.close { releaseCalls := 0 })).releaseCalls = 2 ∧
    (Original.close { releaseCalls := 0 }).releaseCalls = 1 :=
  ⟨rfl, rfl⟩

/-- C7 amended: calling `close()` twice produces no error in either
variant.  In the enhanced variant the first call releases the handle if
open and every subsequent call is a no-op (no second release attempt);
in the baseline variant every call forwards another release to the
client, swallowing any exception, so a second release attempt does
occur. -/
theorem C7_close_idempotence (s : Enhanced.ShelterState)
    (t : Original.ShelterState) :
    Enhanced.close (Enhanced.close s) = Enhanced.close s ∧
    (Enhanced.close s).client = none ∧
    (s.client = some () → (Enhanced.close s).releaseCalls = s.releaseCalls + 1) ∧
    (s.client = none → Enhanced.close s = s) ∧
    (Original.close t).releaseCalls = t.releaseCalls + 1 := by
  obtain ⟨client, rc⟩ := s
  cases client with
  | none => exact ⟨rfl, rfl, fun h => by simp at h, fun _ => rfl, rfl⟩
  | some u => exact ⟨rfl, rfl, fun _ => rfl, fun h => by simp at h, rfl⟩

/-- C7 amended, witness: a freshly constructed enhanced instance,
closed twice. -/
theorem C7_close_idempotence_witness :
    Enhanced.close (Enhanced.close { client := some (), releaseCalls := 0 })
      = Enhanced.close { client := some (), releaseCalls := 0 } ∧
    (Enhanced.close { client := some (), releaseCalls := 0 }).client = none ∧
    (Enhanced.close { client := some (), releaseCalls := 0 }).releaseCalls = 1 :=
  have h := C7_close_idempotence { client := some (), releaseCalls := 0 }
    { releaseCalls := 0 }
  ⟨h.1, h.2.1, h.2.2.1 rfl⟩

/-- C8: in the enhanced variant, after `close()` every subsequent
`create`, `read`, `update` or `delete` call with otherwise valid
arguments fails with the `RuntimeError` raised by the `collection`
property guard, independently of the store reply. -/
theorem C8_operations_after_close (s0 s : Enhanced.ShelterState)
    (data q ud : PyVal) (query projection : Option PyVal) (limit : Int)
    (sort : Option (List (String × Int))) (many upsert : Bool)
    (storeC : StoreOutcome InsertOneResult) (storeR : StoreOutcome (List Doc))
    (storeU : StoreOutcome UpdateResult) (storeD : StoreOutcome DeleteResult) :
    (Enhanced.close s0).client = none ∧
    (s.client = none →
      (isDict data = true → dictIsEmpty data = false →
        Enhanced.create s data storeC
          = .error (.runtimeError "MongoDB client is not initialized")) ∧
      (isDict (query.getD (.vdict [])) = true →
        Enhanced.read s query projection limit sort storeR
          = .error (.runtimeError "MongoDB client is not initialized")) ∧
      (isDict q = true → dictIsEmpty q = false →
        isDict ud = true → dictIsEmpty ud = false →
        Enhanced.update s q ud many upsert storeU
          = .error (.runtimeError "MongoDB client is not initialized")) ∧
      (isDict q = true → dictIsEmpty q = false →
        Enhanced.delete s q many storeD
          = .error (.runtimeError "MongoDB client is not initialized"))) := by
  constructor
  · obtain ⟨client, rc⟩ := s0
    cases client <;> rfl
  · intro hc
    refine ⟨?_, ?_, ?_, ?_⟩
    · intro h1 h2
      simp [Enhanced.create, Enhanced.collectionGuard, h1, h2, hc]
    · intro h1
      simp [Enhanced.read, Enhanced.collectionGuard, h1, hc]
    · intro h1 h2 h3 h4
      simp [Enhanced.update, Enhanced.collectionGuard, h1, h2, h3, h4, hc]
    · intro h1 h2
      simp [Enhanced.delete, Enhanced.collectionGuard, h1, h2, hc]

/-- C8 witness: a closed instance rejects a concrete valid `create` and
`read` with the "not initialized" `RuntimeError`. -/
theorem C8_operations_after_close_witness :
    Enhanced.create { client := none, releaseCalls := 1 }
        (.vdict [("name", .vstr "Rex")])
        (.ok { acknowledged := true, inserted_id := some 7 })
      = .error (.runtimeError "MongoDB client is not initialized") ∧
    Enhanced.read { client := none, releaseCalls := 1 } none none 0 none
        (.ok [])
      = .error (.runtimeError "MongoDB client is not initialized") :=
  have h := C8_operations_after_close { client := some (), releaseCalls := 0 }
    { client := none, releaseCalls := 1 } (.vdict [("name", .vstr "Rex")])
    (.vdict [("a", .vnum 1)]) (.vdict [("a", .vnum 1)]) none none 0 none
    false false (.ok { acknowledged := true, inserted_id := some 7 })
    (.ok []) (.ok { modified_count := some 0 }) (.ok { deleted_count := some 0 })
  ⟨(h.2 rfl).1 rfl rfl, (h.2 rfl).2.1 rfl⟩

/-- C9 counterexample: in the baseline variant a missing/null modified
count is not coerced to zero — `int(None)` raises `TypeError`, which
escapes the `except PyMongoError` clause. -/
theorem C9_counterexample :
    Original.update (.vdict [("name", .vstr "Rex")]) (.vdict [("a", .vnum 1)])
        false false (.ok { modified_count := none })
      = (.error (.typeError "int() argument must be a number, not NoneType"), []) :=
  rfl

/-- C9 amended: successful `update`/`delete` calls return the count
reported by the store; the enhanced variant coerces a missing/null count
to zero (`result.modified_count or 0`), while the baseline variant
converts the reported count directly and raises `TypeError` when it is
missing/null. -/
theorem C9_store_counts (s : Enhanced.ShelterState) (q ud : PyVal)
    (many upsert : Bool) (mc dc : Option Int) (n : Int) :
    (s.client = some () → isDict q = true → dictIsEmpty q = false →
      isDict ud = true → dictIsEmpty ud = false →
      Enhanced.update s q ud many upsert (.ok { modified_count := mc })
        = .ok (pyOrZero mc)) ∧
    (s.client = some () → isDict q = true → dictIsEmpty q = false →
      Enhanced.delete s q many (.ok { deleted_count := dc })
        = .ok (pyOrZero dc)) ∧
    pyOrZero none = 0 ∧
    pyOrZero (some n) = n ∧
    (isDict q = true → isDict ud = true →
      Original.update q ud many upsert (.ok { modified_count := some n })
        = (.ok n, []) ∧
      Original.update q ud many upsert (.ok { modified_count := none })
        = (.error (.typeError "int() argument must be a number, not NoneType"), [])) ∧
    (isDict q = true →
      Original.delete q many (.ok { deleted_count := some n }) = (.ok n, []) ∧
      Original.delete q many (.ok { deleted_count := none })
        = (.error (.typeError "int() argument must be a number, not NoneType"), [])) := by
  refine ⟨?_, ?_, rfl, rfl, ?_, ?_⟩
  · intro hs h1 h2 h3 h4
    simp [Enhanced.update, Enhanced.collectionGuard, hs, h1, h2, h3, h4]
  · intro hs h1 h2
    simp [Enhanced.delete, Enhanced.collectionGuard, hs, h1, h2]
  · intro h1 h2
    constructor <;> simp [Original.update, pyIntOfCount, h1, h2]
  · intro h1
    constructor <;> simp [Original.delete, pyIntOfCount, h1]

/-- C9 amended, witness: concrete update/delete calls with a reported
and a null count in each variant. -/
theorem C9_store_counts_witness :
    Enhanced.update { client := some (), releaseCalls := 0 }
        (.vdict [("name", .vstr "Rex")]) (.vdict [("a", .vnum 1)]) false false
        (.ok { modified_count := none }) = .ok 0 ∧
    Enhanced.delete { client := some (), releaseCalls := 0 }
        (.vdict [("name", .vstr "Rex")]) false
        (.ok { deleted_count := some 4 }) = .ok 4 ∧
    Original.update (.vdict [("name", .vstr "Rex")]) (.vdict [("a", .vnum 1)])
        false false (.ok { modified_count := some 4 }) = (.ok 4, []) ∧
    Original.delete (.vdict [("name", .vstr "Rex")]) false
        (.ok { deleted_count := none })
      = (.error (.typeError "int() argument must be a number, not NoneType"), []) :=
  have h := C9_store_counts { client := some (), releaseCalls := 0 }
    (.vdict [("name", .vstr "Rex")]) (.vdict [("a", .vnum 1)]) false false
    none (some 4) 4
  ⟨h.1 rfl rfl rfl rfl rfl, h.2.1 rfl rfl rfl, (h.2.2.2.2.1 rfl rfl).1,
    (h.2.2.2.2.2 rfl).2⟩
